import Mathlib

/-!
Verification development for the DecisionTwin pipeline
(`src/agents/extractor.py`, `src/agents/persona_builder.py`,
`src/agents/debater.py`, `src/agents/summarizer.py`, `src/config.py`).

The external text-generation service ("Gateway") is modelled as an oracle
parameter: every place the Python code performs a network call, the Lean
function consumes one oracle value describing the observable outcome of that
call (raised an exception / returned content that parses to a given JSON
value / returned unparseable content).  Prompt strings are inputs to the
external service only, so they do not appear in the model: the oracle is
indexed by call position instead of by prompt text.  Python's `random`
module is likewise modelled by explicit index choices supplied per call.
-/

namespace DecisionTwin

/-- JSON values as produced by Python's `json.loads`.  Objects keep their
field list; duplicate keys are resolved last-wins at lookup, matching the
dict that `json.loads` builds. -/
inductive JVal where
  | null
  | bool (b : Bool)
  | num (n : Int)
  | str (s : String)
  | arr (xs : List JVal)
  | obj (fields : List (String × JVal))
deriving Repr

/-- Lookup of a field in a JSON object's field list, last occurrence wins
(as in the dict built by `json.loads`). -/
def lookupField (fields : List (String × JVal)) (k : String) : Option JVal :=
  (fields.reverse.find? (fun f => f.1 == k)).map (fun f => f.2)

/-- Python's `\s` character class (ASCII part). -/
def isPySpace (c : Char) : Bool :=
  c = ' ' || c = '\t' || c = '\n' || c = '\r' || c = Char.ofNat 11 || c = Char.ofNat 12

/-- Python's `\w` character class (ASCII part). -/
def isWordChar (c : Char) : Bool :=
  c.isAlphanum || c = '_'

/-- The character class `[\w\s,]` used by the stakeholder regex. -/
def isClassChar (c : Char) : Bool :=
  isWordChar c || isPySpace c || c = ','

/-- Is `needle` a prefix of `hay`? -/
def chPre : List Char → List Char → Bool
  | [], _ => true
  | _ :: _, [] => false
  | n :: ns, h :: hs => n = h && chPre ns hs

/-- Is `needle` a contiguous sublist of `hay`?  Models Python's `in` on
strings. -/
def chSub (needle : List Char) : List Char → Bool
  | [] => chPre needle []
  | h :: hs => chPre needle (h :: hs) || chSub needle hs

/-- Python `needle in hay` for strings. -/
def strHasSub (hay needle : String) : Bool :=
  chSub needle.toList hay.toList

/-- Driver for Python `s.split(sep)` (fuel bounds the scan by the input length;
`sep` is non-empty at every use site). -/
def pySplitAux (sep : List Char) : Nat → List Char → List Char →
    List (List Char)
  | 0, acc, cs => [acc.reverse ++ cs]
  | _ + 1, acc, [] => [acc.reverse]
  | fuel + 1, acc, c :: cs =>
    if chPre sep (c :: cs) then
      acc.reverse :: pySplitAux sep fuel [] ((c :: cs).drop sep.length)
    else pySplitAux sep fuel (c :: acc) cs

/-- Python `s.split(sep)` (all occurrences, non-overlapping, left to
right; `"".split(sep) = [""]`). -/
def pySplit (s sep : String) : List String :=
  (pySplitAux sep.toList (s.toList.length + 1) [] s.toList).map
    (fun cs => String.mk cs)

/-- Driver for Python `s.replace(old, new)` (`old` is non-empty at every use site). -/
def pyReplaceAux (old new : List Char) : Nat → List Char → List Char
  | 0, cs => cs
  | _ + 1, [] => []
  | fuel + 1, c :: cs =>
    if chPre old (c :: cs) then
      new ++ pyReplaceAux old new fuel ((c :: cs).drop old.length)
    else c :: pyReplaceAux old new fuel cs

/-- Python `s.replace(old, new)`. -/
def pyReplace (s old new : String) : String :=
  String.mk (pyReplaceAux old.toList new.toList s.toList.length s.toList)

/-- Python `s.strip()` (ASCII whitespace). -/
def pyStrip (s : String) : String :=
  String.mk (((s.toList.dropWhile isPySpace).reverse.dropWhile
    isPySpace).reverse)

/-- Python `s.lower()` (ASCII). -/
def pyLower (s : String) : String :=
  String.mk (s.toList.map Char.toLower)

/-- Python `sep.join(parts)`. -/
def joinSep (sep : String) : List String → String
  | [] => ""
  | [x] => x
  | x :: xs => x ++ sep ++ joinSep sep xs

/-!
Model of the two `re.findall` patterns of `src/agents/extractor.py`
(compiled with `re.DOTALL`):

  stakeholder_pattern = `(\d+\.\s+[\w\s,]+?:.*?)(?=\n\d+\.|$)`
  issue/process pattern = `(\d+\.\s+.*?)(?=\n\d+\.|$)`

`$` (without MULTILINE) matches at the end of the input and just before a
final trailing newline.  Because the lazy `.*?` stops at the first position
where the lookahead holds, a match extends to the first `\n<digits>.`
boundary or to the end of the input.  In the stakeholder pattern the greedy
`\s+` and the lazy `[\w\s,]+?` can trade whitespace characters between them
(whitespace belongs to both classes), so the combined requirement after
`<digits>.` is: one-or-more whitespace characters, then the first colon of
the remainder must be reachable through `[\w\s,]` characters only, with at
least two characters consumed before it in total.  The overall matched text
is the same for every such split.
-/

/-- Does the lazy body of a match stop here?  True at a `\n<digits>.`
boundary, at the end of the input, and just before a final trailing
newline (Python's `$`). -/
def lookaheadStop : List Char → Bool
  | [] => true
  | ['\n'] => true
  | '\n' :: c :: rest =>
    let (ds, r) := (c :: rest).span (fun ch => ch.isDigit)
    !ds.isEmpty && (match r with | '.' :: _ => true | _ => false)
  | _ => false

/-- Lazy `.*?(?=\n\d+\.|$)`: consume characters up to the first stop
position, returning (consumed, rest). -/
def lazyBody : List Char → List Char × List Char
  | [] => ([], [])
  | c :: rest =>
    if lookaheadStop (c :: rest) then ([], c :: rest)
    else
      let (b, r) := lazyBody rest
      (c :: b, r)

/-- Scan for the first colon reachable through `[\w\s,]` characters.
Returns the characters before the colon if it exists. -/
def classGap : List Char → Option (List Char)
  | [] => none
  | c :: rest =>
    if c = ':' then some []
    else if isClassChar c then (classGap rest).map (fun g => c :: g)
    else none

/-- Match the stakeholder pattern anchored at the start of `cs`; returns
(matched text, rest after the match). -/
def matchStake (cs : List Char) : Option (List Char × List Char) :=
  let (ds, r1) := cs.span (fun ch => ch.isDigit)
  if ds.isEmpty then none
  else
    match r1 with
    | '.' :: r2 =>
      let (ws, r3) := r2.span isPySpace
      if ws.isEmpty then none
      else
        match classGap r3 with
        | none => none
        | some gap =>
          if ws.length + gap.length < 2 then none
          else
            let r4 := r3.drop (gap.length + 1)
            let (body, rest) := lazyBody r4
            some (ds ++ '.' :: (ws ++ (gap ++ ':' :: body)), rest)
    | _ => none

/-- Match the issue/process pattern anchored at the start of `cs`. -/
def matchNum (cs : List Char) : Option (List Char × List Char) :=
  let (ds, r1) := cs.span (fun ch => ch.isDigit)
  if ds.isEmpty then none
  else
    match r1 with
    | '.' :: r2 =>
      let (ws, r3) := r2.span isPySpace
      if ws.isEmpty then none
      else
        let (body, rest) := lazyBody r3
        some (ds ++ '.' :: (ws ++ body), rest)
    | _ => none

/-- Driver for `re.findall`: scan left to right, emitting non-overlapping
matches and advancing one character on failure.  Fuel bounds the scan by
the input length (every match consumes at least one character). -/
def findallAux (m : List Char → Option (List Char × List Char)) :
    Nat → List Char → List (List Char)
  | 0, _ => []
  | _, [] => []
  | fuel + 1, c :: cs =>
    match m (c :: cs) with
    | some (mt, rest) => mt :: findallAux m fuel rest
    | none => findallAux m fuel cs

/-- All stakeholder-pattern matches in `s`. -/
def findallStake (s : String) : List String :=
  (findallAux matchStake s.toList.length s.toList).map (fun cs => String.mk cs)

/-- All issue/process-pattern matches in `s`. -/
def findallNum (s : String) : List String :=
  (findallAux matchNum s.toList.length s.toList).map (fun cs => String.mk cs)

/-! Configuration constants from `src/config.py`. -/

def MIN_STAKEHOLDERS : Nat := 3
def MAX_STAKEHOLDERS : Nat := 10
def DEBATE_ROUNDS : Nat := 3

def DECISION_TYPES : List String :=
  ["Budget Allocation", "Foreign Policy", "Corporate Strategy",
   "Humanitarian Response", "Regulatory Compliance", "Operational Efficiency",
   "Other"]

def psychTraits : List String :=
  ["Risk-Averse", "Risk-Tolerant", "Collaborative", "Authoritative",
   "Empathetic", "Analytical", "Impulsive"]

def influencesVocab : List String :=
  ["Political Pressure", "Financial Incentives", "Public Opinion",
   "Regulatory Constraints", "Strategic Alliances", "Personal Ambition"]

def biasesVocab : List String :=
  ["Confirmation Bias", "Status Quo Bias", "Optimism Bias",
   "Cost-Avoidance Bias", "Groupthink"]

def historicalVocab : List String :=
  ["Conservative Decision-Making", "Innovative Initiatives",
   "Compliance-Driven", "Aggressive Expansion", "Consensus-Building"]

/-! Data model (`src/agents/extractor.py` output shape).

A stakeholder dict as built by the extractor carries `name` plus the four
analysis attributes; the persona builder additionally probes optional
`tone` and `bio` keys (never produced by the extractor, but a caller may
have added them), modelled as `Option` fields.  The two derived ASCII
renderings (`ascii_process`, `ascii_stakeholders`) are presentation-only
strings computed from the lists below and are not modelled; their only
behavioural role — raising on non-string process steps or attributes,
which lands in the fallback path — is folded into the validation below. -/

structure Stakeholder where
  name : String
  psychological_traits : String
  influences : String
  biases : String
  historical_behavior : String
  tone? : Option String := none
  bio? : Option String := none
deriving Repr, DecidableEq

structure Extracted where
  decision_type : String
  stakeholders : List Stakeholder
  issues : List String
  process : List String
deriving Repr, DecidableEq

/-! `mock_extraction` (`src/agents/extractor.py`, lines 41-86). -/

/-- One stakeholder from a regex match, `i` is the 1-based position
(`enumerate(matches[:MAX_STAKEHOLDERS], 1)`). -/
def stakeholderFromMatch (i : Nat) (m : String) : Stakeholder :=
  let name0 := pyStrip ((pySplit m ":").headD "")
  let name1 := pyStrip (pyReplace name0 (toString i ++ ".") "")
  let name := if name1 = "" then "Stakeholder " ++ toString i else name1
  let description := pyStrip ((pySplit m ":").getD 1 "")
  let traits :=
    if strHasSub (pyLower description) "strategy" then "Analytical"
    else if strHasSub (pyLower description) "humanitarian" then "Empathetic"
    else psychTraits.getD (i % psychTraits.length) ""
  { name := name
    psychological_traits := traits
    influences := influencesVocab.getD (i % influencesVocab.length) ""
    biases := biasesVocab.getD (i % biasesVocab.length) ""
    historical_behavior := historicalVocab.getD (i % historicalVocab.length) "" }

/-- The stakeholder list built from the matches, 1-based indexing. -/
def stakeholdersOfMatches : Nat → List String → List Stakeholder
  | _, [] => []
  | i, m :: ms => stakeholderFromMatch i m :: stakeholdersOfMatches (i + 1) ms

/-- One issue/process item from a regex match:
`match.strip().split(':')[0].strip().replace(f"{i+1}.", "").strip()` with
1-based `i + 1`. -/
def cleanedItem (i : Nat) (m : String) : String :=
  pyStrip (pyReplace (pyStrip ((pySplit (pyStrip m) ":").headD ""))
    (toString i ++ ".") "")

def cleanedItems : Nat → List String → List String
  | _, [] => []
  | i, m :: ms => cleanedItem i m :: cleanedItems (i + 1) ms

/-- The hardcoded stakeholder roster used when the dilemma mentions the
State Department or the Indo-Pacific. -/
def hardcodedStakeholders : List Stakeholder :=
  [{ name := "Elizabeth Carter", psychological_traits := "Analytical",
     influences := "Strategic Alliances", biases := "Confirmation Bias",
     historical_behavior := "Consensus-Building" },
   { name := "Michael Nguyen", psychological_traits := "Empathetic",
     influences := "Public Opinion", biases := "Optimism Bias",
     historical_behavior := "Innovative Initiatives" },
   { name := "Laura Thompson", psychological_traits := "Authoritative",
     influences := "Political Pressure", biases := "Groupthink",
     historical_behavior := "Conservative Decision-Making" },
   { name := "Priya Sharma", psychological_traits := "Risk-Tolerant",
     influences := "Financial Incentives", biases := "Status Quo Bias",
     historical_behavior := "Aggressive Expansion" },
   { name := "James Sullivan", psychological_traits := "Collaborative",
     influences := "Regulatory Constraints", biases := "Cost-Avoidance Bias",
     historical_behavior := "Compliance-Driven" },
   { name := "Rebecca Ortiz", psychological_traits := "Risk-Averse",
     influences := "Personal Ambition", biases := "Confirmation Bias",
     historical_behavior := "Conservative Decision-Making" },
   { name := "Robert Kline", psychological_traits := "Authoritative",
     influences := "Political Pressure", biases := "Groupthink",
     historical_behavior := "Compliance-Driven" }]

def hardcodedIssues : List String :=
  ["Humanitarian crisis in Country A", "Security threats in Country B",
   "Economic instability in Country C", "Political viability"]

def hardcodedProcess : List String :=
  ["Situation Assessment", "Options Development", "Interagency Coordination",
   "Task Force Deliberation", "Recommendation and Approval"]

/-- Model of `mock_extraction(dilemma, process_hint)`: the offline fallback
extraction built by parsing the inputs with the two regexes. -/
def mock_extraction (dilemma process_hint : String) : Extracted :=
  let ms := findallStake process_hint
  let stakeholders := stakeholdersOfMatches 1 (ms.take MAX_STAKEHOLDERS)
  let issues0 := cleanedItems 1 (findallNum dilemma)
  let issues := if issues0.isEmpty then
    ["Unknown issue 1", "Unknown issue 2", "Unknown issue 3"] else issues0
  let process0 := cleanedItems 1 (findallNum process_hint)
  let process := if process0.isEmpty then
    ["Unknown step 1", "Unknown step 2", "Unknown step 3"] else process0
  let special := strHasSub dilemma "State Department" ||
    strHasSub dilemma "Indo-Pacific"
  { decision_type :=
      if strHasSub dilemma "State Department" then "Foreign Policy" else "Other"
    stakeholders := if special then hardcodedStakeholders else stakeholders
    issues := (if special then hardcodedIssues else issues).take 5
    process := if special then hardcodedProcess else process }

/-! `extract_info` (`src/agents/extractor.py`, lines 88-175).

The Gateway outcome for the single extraction call: the call raised, or
returned content that `json.loads` rejects, or returned content parsing to
a JSON value (after the code-fence unwrap).  Every exception inside the
`try` block — including every type error raised downstream on
out-of-shape field values — is caught by the blanket `except`, which
returns `mock_extraction`; the validation below therefore resolves to the
fallback (`none`) in exactly those situations.  Two unvalidated corners
where Python would return a string-valued `issues`/`process` field
verbatim (no code below ever iterates `issues`, and a *string* `process`
survives the ASCII rendering) are outside the modelled response space;
every other out-of-shape value raises before the return and is folded into
the fallback here, exactly as in the source. -/

inductive GwResult where
  | failure
  | malformed
  | json (j : JVal)
deriving Repr

/-- Validation of one stakeholder object (the loop at lines 160-166):
missing fields are defaulted (name to `"Unknown"`, attributes to the first
vocabulary entry), a name absent from the process hint or any field value
that would later raise a type error sends the whole call to the fallback. -/
def validateStakeholder (process_hint : String) : JVal → Option Stakeholder
  | .obj fs => do
    let name ← match lookupField fs "name" with
      | none => some "Unknown"
      | some (.str n) =>
        if n ≠ "Unknown" && !strHasSub process_hint n then none else some n
      | some _ => none
    let attr : String → List String → Option String := fun k vocab =>
      match lookupField fs k with
      | none => some (vocab.headD "")
      | some (.str v) => some v
      | some _ => none
    let pt ← attr "psychological_traits" psychTraits
    let inf ← attr "influences" influencesVocab
    let bs ← attr "biases" biasesVocab
    let hb ← attr "historical_behavior" historicalVocab
    some { name := name, psychological_traits := pt, influences := inf,
           biases := bs, historical_behavior := hb }
  | _ => none

/-- A JSON list of strings, or `none` (folded into the fallback). -/
def strListOf : JVal → Option (List String)
  | .arr xs => xs.mapM (fun v => match v with | .str s => some s | _ => none)
  | _ => none

/-- Lines 152-155: the decision type, reset to `"Other"` when missing,
non-string or outside the configured vocabulary. -/
def decisionTypeOf (fields : List (String × JVal)) : String :=
  match lookupField fields "decision_type" with
  | some (.str s) => if DECISION_TYPES.contains s then s else "Other"
  | _ => "Other"

/-- The success-path validation (lines 150-171) over the parsed response
object; `none` means the code reaches `mock_extraction` instead (either by
the explicit count/name checks or because an out-of-shape value raises
inside the `try` block). -/
def validateSuccess (process_hint : String) (fields : List (String × JVal)) :
    Option Extracted :=
  match (lookupField fields "stakeholders").getD (.arr []) with
  | .arr stks =>
    if MIN_STAKEHOLDERS ≤ stks.length ∧ stks.length ≤ MAX_STAKEHOLDERS then
      match stks.mapM (validateStakeholder process_hint),
          strListOf ((lookupField fields "issues").getD
            (.arr [.str "Unknown issue"])),
          strListOf ((lookupField fields "process").getD
            (.arr [.str "Unknown step"])) with
      | some stakeholders, some issues, some process =>
        some { decision_type := decisionTypeOf fields,
               stakeholders := stakeholders, issues := issues,
               process := process }
      | _, _, _ => none
    else none
  | _ => none

/-- Model of `extract_info(dilemma, process_hint)`: one Gateway call; any failure,
parse error, count violation, unknown name or out-of-shape value resolves
to `mock_extraction`.  (The `tenacity` retry decorator never fires: the
body catches every exception itself.) -/
def extract_info (gw : GwResult) (dilemma process_hint : String) : Extracted :=
  match gw with
  | .json (.obj fields) =>
    (validateSuccess process_hint fields).getD (mock_extraction dilemma process_hint)
  | _ => mock_extraction dilemma process_hint

/-! `generate_personas` (`src/agents/persona_builder.py`). -/

structure Persona where
  name : String
  goals : List String
  biases : List String
  tone : String
  bio : String
  expected_behavior : String
deriving Repr, DecidableEq

def goals_options : List String :=
  ["maximize impact", "ensure stability", "promote growth",
   "maintain oversight", "enhance influence", "secure resources",
   "minimize risks"]

def biases_options : List String :=
  ["confirmation bias", "optimism bias", "groupthink", "status quo bias",
   "cost-avoidance bias"]

def tonesVocab : List String :=
  ["diplomatic", "assertive", "empathetic", "analytical", "cautious"]

/-- The external nondeterminism consumed while building one persona: the
positions drawn by `random.sample(goals_options, 2)` and
`random.sample(biases_options, 2)` (a first pick and a second pick from
the remainder — exactly the space of samples without replacement), the
`random.choice(tones)` position, and the Gateway outcome for the one
profile-generation call (`none` = the call raised). -/
structure PersonaEnv where
  g1 : Fin 7
  g2 : Fin 6
  b1 : Fin 5
  b2 : Fin 4
  t : Fin 5
  gw : Option String
deriving Repr

/-- One `random.sample(opts, 2)` outcome determined by two pick positions:
the first element, then one of the remaining ones. -/
def sample2 (opts : List String) (i j : Nat) : List String :=
  [opts.getD i "", (opts.eraseIdx i).getD j ""]

/-- Python `response.split("\n\n", 1)`. -/
def splitFirstBlank (s : String) : String × String :=
  match pySplit s "\n\n" with
  | [] => (s, "")
  | [a] => (a, "")
  | a :: rest => (a, joinSep "\n\n" rest)

/-- The templated fallback negotiation-behavior sentence. -/
def behaviorTemplate (name tone : String) : String :=
  "During negotiations, " ++ name ++
  " will focus on their primary goals, advocating with a " ++ tone ++
  " tone, while being mindful of their biases."

/-- The `stakeholder_dict` comprehension lookup: last entry wins. -/
def lookupStakeholder (stks : List Stakeholder) (name : String) :
    Option Stakeholder :=
  stks.reverse.find? (fun s => s.name == name)

/-- Build one persona (one iteration of the `for name in names` loop). -/
def buildPersona (extracted : Extracted) (e : PersonaEnv) (name : String) :
    Persona :=
  let sd := lookupStakeholder extracted.stakeholders name
  let goals := sample2 goals_options e.g1.val e.g2.val
  let biases := sample2 biases_options e.b1.val e.b2.val
  let tone := match sd with
    | some s => match s.tone? with
      | some t => t
      | none => tonesVocab.getD e.t.val ""
    | none => tonesVocab.getD e.t.val ""
  let initial_bio := ((sd.bind (fun s => s.bio?)).getD
    (name ++ " has a long career in their field, with extensive experience relevant to the decision at hand."))
  let bb : String × String := match e.gw with
    | some resp =>
      if strHasSub resp "\n\n" then splitFirstBlank resp
      else (resp, behaviorTemplate name tone)
    | none => (initial_bio, behaviorTemplate name tone)
  { name := name, goals := goals, biases := biases, tone := tone,
    bio := pyStrip bb.1, expected_behavior := pyStrip bb.2 }

/-- The persona-building loop over the stakeholder names, threading the
per-iteration external choices. -/
def buildPersonas (extracted : Extracted) (env : Nat → PersonaEnv) :
    Nat → List String → List Persona
  | _, [] => []
  | i, n :: ns =>
    buildPersona extracted (env i) n :: buildPersonas extracted env (i + 1) ns

/-- Model of `generate_personas(extracted)`. -/
def generate_personas (env : Nat → PersonaEnv) (extracted : Extracted) :
    List Persona :=
  if extracted.stakeholders.isEmpty then []
  else buildPersonas extracted env 0 (extracted.stakeholders.map (fun s => s.name))

/-! `simulate_debate` (`src/agents/debater.py`).

The global timeout is a `SIGALRM` whose handler raises
`TimeoutException`; it is modelled at Gateway-call granularity: the
per-call oracle outcome `timeout` means the exception was raised at (or
between the end of the previous and this) call.  A per-call outcome is
otherwise `gwError` — the API call or `json.loads(raw_response)` raised —
or `success j`, the parsed JSON response, which the code appends to the
round transcript *verbatim* when it is an object carrying the four keys
`agent`, `round`, `step`, `message`, and otherwise converts to a raised
`ValueError`.  In the source every per-call exception other than
`TimeoutException` is re-raised (`raise  # Let the exception propagate to
fail fast since fallback is not needed`) and escapes to the caller. -/

inductive CallResult where
  | success (j : JVal)
  | gwError
  | timeout
deriving Repr

/-- The two exceptions `simulate_debate` can propagate: the `IndexError`
from `process_steps[-1]` on an empty process list, and a re-raised
per-call error. -/
inductive PyErr where
  | indexError
  | callError
deriving Repr, DecidableEq

/-- The check `isinstance(response, dict) and all(key in response for key in
["agent", "round", "step", "message"])`. -/
def goodEntry : JVal → Bool
  | .obj fs =>
    ["agent", "round", "step", "message"].all
      (fun k => fs.any (fun f => f.1 == k))
  | _ => false

/-- Outcome of one round's inner persona loop. -/
inductive RoundOut where
  | ok (entries : List JVal) (next : Nat)
  | errOut
  | timeoutOut
deriving Repr

/-- The inner `for persona in filtered_personas` loop: one Gateway call
per persona, appending parsed responses; a bad response or error aborts
(re-raise), a timeout propagates to the outer handler discarding this
round's entries.  `k` numbers the Gateway calls made so far. -/
def roundLoop (oracle : Nat → CallResult) : Nat → List Persona → RoundOut
  | k, [] => .ok [] k
  | k, _ :: ps =>
    match oracle k with
    | .success j =>
      if goodEntry j then
        match roundLoop oracle (k + 1) ps with
        | .ok es k2 => .ok (j :: es) k2
        | o => o
      else .errOut
    | .gwError => .errOut
    | .timeout => .timeoutOut

/-- The synthetic entry appended by the `TimeoutException` handler
(`roundNum` is the 1-based `round_num + 1`). -/
def sysEntry (roundNum : Nat) (step : String) (maxTime : Nat) : JVal :=
  .obj [("agent", .str "System"), ("round", .num (Int.ofNat roundNum)),
        ("step", .str step),
        ("message", .str ("Simulation interrupted: Exceeded maximum time of "
          ++ toString maxTime ++ " seconds. Results up to this point are provided."))]

/-- The outer `for round_num in range(rounds)` loop.  On timeout the
in-progress round's entries are discarded (they live in the local
`round_transcript`) and the handler appends the System entry only when
the transcript is non-empty (`if transcript:`). -/
def debateLoop (oracle : Nat → CallResult) (fps : List Persona)
    (maxTime : Nat) :
    List String → Nat → Nat → List JVal → Except PyErr (List JVal)
  | [], _, _, acc => .ok acc
  | step :: rest, roundNum, k, acc =>
    match roundLoop oracle k fps with
    | .ok es k2 => debateLoop oracle fps maxTime rest (roundNum + 1) k2 (acc ++ es)
    | .errOut => .error .callError
    | .timeoutOut =>
      .ok (if acc.isEmpty then acc
           else acc ++ [sysEntry (roundNum + 1) step maxTime])

/-- Insert-or-replace into the `stakeholder_roles` dict. -/
def updateRole : List (String × String) → String → String →
    List (String × String)
  | [], k, v => [(k, v)]
  | (k0, v0) :: rest, k, v =>
    if k0 = k then (k, v) :: rest else (k0, v0) :: updateRole rest k v

/-- The `stakeholder_roles` mapping built from the process hint
(lines 51-60): for each line containing a colon and some extracted
stakeholder's name, split at the first colon, clean the name
(`strip().split(".")[-1].strip()`), and record the role — unless the role
mentions USAID, in which case the entry is skipped. -/
def rolesFromHint (process_hint : String) (stks : List Stakeholder) :
    List (String × String) :=
  (pySplit process_hint "\n").foldl (fun acc line =>
    if strHasSub line ":" && stks.any (fun s => strHasSub line s.name) then
      let parts := pySplit line ":"
      let name := pyStrip ((pySplit (pyStrip (parts.headD "")) ".").getLastD "")
      let role := pyStrip (joinSep ":" parts.tail)
      if strHasSub role "USAID" then acc else updateRole acc name role
    else acc) []

/-- Python `stakeholder_roles.get(name, "")`. -/
def roleOf (roles : List (String × String)) (name : String) : String :=
  ((roles.find? (fun r => r.1 == name)).map (fun r => r.2)).getD ""

/-- Line 63: keep the personas whose looked-up role does not mention
USAID. -/
def filteredPersonas (process_hint : String) (stks : List Stakeholder)
    (personas : List Persona) : List Persona :=
  personas.filter (fun p =>
    !strHasSub (roleOf (rolesFromHint process_hint stks) p.name) "USAID")

/-- Lines 46-49: pad the process list with its last element up to
`rounds`, then truncate; `process_steps[-1]` raises `IndexError` on an
empty list. -/
def padSteps (ps : List String) (rounds : Nat) : Option (List String) :=
  if ps.length < rounds then
    match ps.getLast? with
    | none => none
    | some last => some ((ps ++ List.replicate (rounds - ps.length) last).take rounds)
  else some (ps.take rounds)

/-- Model of `simulate_debate(personas, dilemma, process_hint, extracted,
scenarios, rounds, max_simulation_time)`.  The dilemma and scenarios only
seed the cumulative-context prompt text, which feeds the oracle.  A
normal or timeout-interrupted run returns the transcript; a re-raised
per-call exception or the empty-process `IndexError` is an error. -/
def simulate_debate (oracle : Nat → CallResult) (personas : List Persona)
    (dilemma process_hint : String) (extracted : Extracted)
    (scenarios : String) (rounds : Nat) (maxTime : Nat) :
    Except PyErr (List JVal) :=
  let _ := dilemma
  let _ := scenarios
  match padSteps extracted.process rounds with
  | none => .error .indexError
  | some steps =>
    debateLoop oracle
      (filteredPersonas process_hint extracted.stakeholders personas)
      maxTime steps 0 0 []

/-! `summarize_and_analyze` (`src/agents/summarizer.py`).

The transcript itself is serialized only into the prompt, so it feeds the
oracle and does not otherwise influence the result.  The summary and
keywords are returned verbatim from the parsed response (any JSON value);
the faultlines/chokepoints/suggestion values are interpolated into an
f-string, i.e. rendered with Python's `str`. -/

mutual

/-- Python `repr` of a parsed-JSON value (string escaping inside nested
reprs is not reproduced; no theorem below evaluates it on strings that
would need escapes). -/
def pyRepr : JVal → String
  | .null => "None"
  | .bool true => "True"
  | .bool false => "False"
  | .num n => toString n
  | .str s => "\x27" ++ s ++ "\x27"
  | .arr xs => "[" ++ String.intercalate ", " (pyReprList xs) ++ "]"
  | .obj fs => "\x7b" ++ String.intercalate ", " (pyReprObj fs) ++ "\x7d"

def pyReprList : List JVal → List String
  | [] => []
  | v :: vs => pyRepr v :: pyReprList vs

def pyReprObj : List (String × JVal) → List String
  | [] => []
  | f :: fs => ("\x27" ++ f.1 ++ "\x27: " ++ pyRepr f.2) :: pyReprObj fs

end

/-- Python `str` of a parsed-JSON value. -/
def pyStr : JVal → String
  | .str s => s
  | v => pyRepr v

/-- Model of `summarize_and_analyze(transcript)`: single Gateway call; the fixed
generic triple on any failure (raised call, unparseable content, or a
non-object payload, whose `.get` raises).  The summary and keyword list
are whatever JSON values the response carried. -/
def summarize_and_analyze (gw : GwResult) (transcript : List JVal) :
    JVal × JVal × String :=
  let _ := transcript
  match gw with
  | .json (.obj fs) =>
    let summary := (lookupField fs "summary").getD (.str "No summary generated.")
    let keywords := (lookupField fs "keywords").getD (.arr [])
    let faultlines := (lookupField fs "faultlines").getD
      (.str "No faultlines identified.")
    let chokepoints := (lookupField fs "chokepoints").getD
      (.str "No chokepoints identified.")
    let suggestion := (lookupField fs "suggestion").getD
      (.str "No suggestions provided.")
    (summary, keywords,
     "Faultlines: " ++ pyStr faultlines ++ "\nChokepoints: " ++
       pyStr chokepoints ++ "\nRecommendations: " ++ pyStr suggestion)
  | _ =>
    (.str "The debate focused on key decision points, but a detailed summary could not be generated due to an error.",
     .arr [.str "decision", .str "stakeholders", .str "process", .str "debate"],
     "Consider reviewing the process steps and stakeholder roles to ensure alignment and clarity.")

/-! Specification-side descriptions of debate runs, used to state the
theorems below: the response delivered at call `k`, whether a call
succeeded with a well-formed entry, whether it raised (or delivered an
out-of-shape payload, which the code converts to a raised `ValueError`),
and the transcript a run assembles out of the oracle's responses. -/

/-- The JSON object delivered at call `k` (meaningful when that call
succeeded). -/
def entryAt (oracle : Nat → CallResult) (k : Nat) : JVal :=
  match oracle k with
  | .success j => j
  | _ => .null

/-- Call `k` succeeded with an object carrying the four required keys. -/
def goodCall (oracle : Nat → CallResult) (k : Nat) : Bool :=
  match oracle k with
  | .success j => goodEntry j
  | _ => false

/-- Call `k` raised, or delivered a payload failing the shape check. -/
def badCall (oracle : Nat → CallResult) (k : Nat) : Bool :=
  match oracle k with
  | .success j => !goodEntry j
  | .gwError => true
  | .timeout => false

/-- The block of `n` responses delivered by calls `k, k+1, …, k+n-1` —
one debate round's contributions, in persona declaration order. -/
def oracleBlock (oracle : Nat → CallResult) : Nat → Nat → List JVal
  | _, 0 => []
  | k, n + 1 => entryAt oracle k :: oracleBlock oracle (k + 1) n

/-- The round-major transcript of `r` full rounds of `width` calls each,
starting at call `k`: the blocks of consecutive rounds concatenated in
order. -/
def oracleRounds (oracle : Nat → CallResult) (width : Nat) :
    Nat → Nat → List JVal
  | _, 0 => []
  | k, r + 1 =>
    oracleBlock oracle k width ++ oracleRounds oracle width (k + width) r

/-- The padded/truncated process-step schedule actually used by a run. -/
def paddedSteps (ps : List String) (rounds : Nat) : List String :=
  (padSteps ps rounds).getD []

/-- The number of personas that speak in each round. -/
def debateWidth (process_hint : String) (stks : List Stakeholder)
    (personas : List Persona) : Nat :=
  (filteredPersonas process_hint stks personas).length

/-! Concrete inputs used by witnesses and counterexamples. -/

/-- A minimal persona record. -/
def onePersona : Persona :=
  { name := "A", goals := [], biases := [], tone := "t", bio := "b",
    expected_behavior := "e" }

/-- A second minimal persona record. -/
def twoPersona : Persona :=
  { name := "B", goals := [], biases := [], tone := "t", bio := "b",
    expected_behavior := "e" }

/-- A well-formed debate response (all four keys present) whose field
values nevertheless fail to echo the persona or round that prompted it. -/
def strayEntry : JVal :=
  .obj [("agent", .str "X"), ("round", .num 99), ("step", .str "w"),
        ("message", .str "m")]

/-- An extraction with a one-step process and no stakeholders. -/
def oneStepExtracted : Extracted :=
  { decision_type := "Other", stakeholders := [], issues := [],
    process := ["S1"] }

/-- An extraction with a two-step process and no stakeholders. -/
def twoStepExtracted : Extracted :=
  { decision_type := "Other", stakeholders := [], issues := [],
    process := ["S1", "S2"] }

/-- Oracle whose first call succeeds and whose second call is cut off by
the global timeout. -/
def cutOffOracle : Nat → CallResult :=
  fun k => if k = 0 then .success strayEntry else .timeout

/-- An extraction carrying one stakeholder named Alice. -/
def aliceStakeholder : Stakeholder :=
  { name := "Alice", psychological_traits := "T", influences := "I",
    biases := "B", historical_behavior := "H" }

/-- The Alice persona. -/
def alicePersona : Persona :=
  { name := "Alice", goals := [], biases := [], tone := "t", bio := "b",
    expected_behavior := "e" }

/-- A single-stakeholder extraction for the persona builder. -/
def oneStakeholderExtracted : Extracted :=
  { decision_type := "Other",
    stakeholders := [{ name := "S1", psychological_traits := "T",
                       influences := "I", biases := "B",
                       historical_behavior := "H" }],
    issues := [], process := [] }

/-- Fixed external choices for the persona builder: first picks
everywhere, failing Gateway. -/
def zeroEnv : Nat → PersonaEnv :=
  fun _ => { g1 := 0, g2 := 0, b1 := 0, b2 := 0, t := 0, gw := none }

/-- A Gateway response object carrying three validly-shaped stakeholders
with a duplicated name. -/
def dupFields : List (String × JVal) :=
  [("stakeholders", .arr [.obj [("name", .str "Bob")],
     .obj [("name", .str "Bob")], .obj [("name", .str "Carl")]]),
   ("process", .arr [.str "s"])]

/-- An extraction carrying the Alice stakeholder and a one-step process. -/
def aliceExtracted : Extracted :=
  { decision_type := "Other", stakeholders := [aliceStakeholder],
    issues := [], process := ["S1"] }

/-! Helper lemmas about the debate loop. -/

theorem oracleBlock_length (oracle : Nat → CallResult) :
    ∀ (n k : Nat), (oracleBlock oracle k n).length = n
  | 0, _ => rfl
  | n + 1, k => by simp [oracleBlock, oracleBlock_length oracle n (k + 1)]

theorem oracleRounds_length (oracle : Nat → CallResult) (width : Nat) :
    ∀ (r k : Nat), (oracleRounds oracle width k r).length = r * width
  | 0, _ => by simp [oracleRounds]
  | r + 1, k => by
    simp [oracleRounds, oracleBlock_length,
      oracleRounds_length oracle width r (k + width), Nat.succ_mul]
    omega

theorem roundLoop_ok (oracle : Nat → CallResult) :
    ∀ (fps : List Persona) (k : Nat),
    (∀ i, i < fps.length → goodCall oracle (k + i) = true) →
    roundLoop oracle k fps =
      .ok (oracleBlock oracle k fps.length) (k + fps.length)
  | [], k, _ => by simp [roundLoop, oracleBlock]
  | _ :: ps, k, h => by
    have h0 : goodCall oracle (k + 0) = true := h 0 (Nat.succ_pos _)
    rw [Nat.add_zero] at h0
    unfold goodCall at h0
    cases ho : oracle k with
    | success j =>
      rw [ho] at h0
      have hg : goodEntry j = true := h0
      have ih := roundLoop_ok oracle ps (k + 1) (fun i hi => by
        have hh := h (i + 1) (by simp only [List.length_cons]; omega)
        rwa [show k + (i + 1) = k + 1 + i by omega] at hh)
      simp only [List.length_cons, roundLoop, ho, hg, if_true, ih]
      simp [oracleBlock, entryAt, ho]
      rw [show k + (ps.length + 1) = k + 1 + ps.length by omega]
    | gwError => rw [ho] at h0; simp at h0
    | timeout => rw [ho] at h0; simp at h0

theorem roundLoop_stop (oracle : Nat → CallResult) :
    ∀ (fps : List Persona) (k j : Nat), j < fps.length →
    (∀ m, m < j → goodCall oracle (k + m) = true) →
    oracle (k + j) = .timeout →
    roundLoop oracle k fps = .timeoutOut
  | [], _, j, hj, _, _ => absurd hj (by simp)
  | _ :: ps, k, 0, _, _, ht => by
    rw [Nat.add_zero] at ht
    simp [roundLoop, ht]
  | _ :: ps, k, j + 1, hj, hgood, ht => by
    have h0 : goodCall oracle (k + 0) = true := hgood 0 (Nat.succ_pos _)
    rw [Nat.add_zero] at h0
    unfold goodCall at h0
    cases ho : oracle k with
    | success j0 =>
      rw [ho] at h0
      have hg : goodEntry j0 = true := h0
      have ih := roundLoop_stop oracle ps (k + 1) j (by simpa using hj)
        (fun m hm => by
          have hh := hgood (m + 1) (by omega)
          rwa [show k + (m + 1) = k + 1 + m by omega] at hh)
        (by rwa [show k + 1 + j = k + (j + 1) by omega])
      simp [roundLoop, ho, hg, ih]
    | gwError => rw [ho] at h0; simp at h0
    | timeout => rw [ho] at h0; simp at h0

theorem roundLoop_err (oracle : Nat → CallResult) :
    ∀ (fps : List Persona) (k j : Nat), j < fps.length →
    (∀ m, m < j → goodCall oracle (k + m) = true) →
    badCall oracle (k + j) = true →
    roundLoop oracle k fps = .errOut
  | [], _, j, hj, _, _ => absurd hj (by simp)
  | _ :: ps, k, 0, _, _, hb => by
    rw [Nat.add_zero] at hb
    unfold badCall at hb
    cases ho : oracle k with
    | success j0 =>
      rw [ho] at hb
      have hg : (!goodEntry j0) = true := hb
      simp at hg
      simp [roundLoop, ho, hg]
    | gwError => simp [roundLoop, ho]
    | timeout => rw [ho] at hb; simp at hb
  | _ :: ps, k, j + 1, hj, hgood, hb => by
    have h0 : goodCall oracle (k + 0) = true := hgood 0 (Nat.succ_pos _)
    rw [Nat.add_zero] at h0
    unfold goodCall at h0
    cases ho : oracle k with
    | success j0 =>
      rw [ho] at h0
      have hg : goodEntry j0 = true := h0
      have ih := roundLoop_err oracle ps (k + 1) j (by simpa using hj)
        (fun m hm => by
          have hh := hgood (m + 1) (by omega)
          rwa [show k + (m + 1) = k + 1 + m by omega] at hh)
        (by rwa [show k + 1 + j = k + (j + 1) by omega])
      simp [roundLoop, ho, hg, ih]
    | gwError => rw [ho] at h0; simp at h0
    | timeout => rw [ho] at h0; simp at h0

theorem debateLoop_nilPersonas (oracle : Nat → CallResult) (mt : Nat) :
    ∀ (steps : List String) (roundNum k : Nat) (acc : List JVal),
    debateLoop oracle [] mt steps roundNum k acc = .ok acc
  | [], _, _, acc => rfl
  | step :: rest, roundNum, k, acc => by
    have ih := debateLoop_nilPersonas oracle mt rest (roundNum + 1) k (acc ++ [])
    simp only [debateLoop, roundLoop, ih]
    simp

theorem debateLoop_ok (oracle : Nat → CallResult) (fps : List Persona)
    (mt : Nat) :
    ∀ (steps : List String) (roundNum k : Nat) (acc : List JVal),
    (∀ i, i < steps.length * fps.length → goodCall oracle (k + i) = true) →
    debateLoop oracle fps mt steps roundNum k acc =
      .ok (acc ++ oracleRounds oracle fps.length k steps.length)
  | [], _, _, acc, _ => by simp [debateLoop, oracleRounds]
  | step :: rest, roundNum, k, acc, h => by
    have hmul : (rest.length + 1) * fps.length =
        rest.length * fps.length + fps.length := Nat.succ_mul _ _
    have hr := roundLoop_ok oracle fps k (fun i hi => h i (by
      simp only [List.length_cons]; omega))
    have ih := debateLoop_ok oracle fps mt rest (roundNum + 1) (k + fps.length)
      (acc ++ oracleBlock oracle k fps.length) (fun i hi => by
        have hh := h (fps.length + i) (by simp only [List.length_cons]; omega)
        rwa [show k + (fps.length + i) = k + fps.length + i by omega] at hh)
    simp only [debateLoop, hr, ih, List.length_cons]
    simp [oracleRounds, List.append_assoc]

theorem debateLoop_err (oracle : Nat → CallResult) (fps : List Persona)
    (mt : Nat) (j : Nat) (hj : j < fps.length) :
    ∀ (i : Nat) (steps : List String) (roundNum k : Nat) (acc : List JVal),
    i < steps.length →
    (∀ m, m < i * fps.length + j → goodCall oracle (k + m) = true) →
    badCall oracle (k + (i * fps.length + j)) = true →
    debateLoop oracle fps mt steps roundNum k acc = .error .callError
  | 0, steps, roundNum, k, acc, hi, hgood, hb => by
    match steps, hi with
    | step :: rest, _ =>
      have hr := roundLoop_err oracle fps k j hj
        (fun m hm => hgood m (by simpa using hm)) (by simpa using hb)
      simp [debateLoop, hr]
  | i + 1, steps, roundNum, k, acc, hi, hgood, hb => by
    match steps, hi with
    | step :: rest, hi =>
      have hmul : (i + 1) * fps.length = i * fps.length + fps.length :=
        Nat.succ_mul _ _
      have hr := roundLoop_ok oracle fps k (fun m hm =>
        hgood m (by omega))
      have ih := debateLoop_err oracle fps mt j hj i rest (roundNum + 1)
        (k + fps.length) (acc ++ oracleBlock oracle k fps.length)
        (by simpa using hi)
        (fun m hm => by
          have hh := hgood (fps.length + m) (by omega)
          rwa [show k + (fps.length + m) = k + fps.length + m by omega] at hh)
        (by rwa [show k + fps.length + (i * fps.length + j) =
              k + ((i + 1) * fps.length + j) by omega])
      simp [debateLoop, hr, ih]

theorem debateLoop_stop (oracle : Nat → CallResult) (fps : List Persona)
    (mt : Nat) (j : Nat) (hj : j < fps.length) :
    ∀ (i : Nat) (steps : List String) (roundNum k : Nat) (acc : List JVal),
    i < steps.length →
    (∀ m, m < i * fps.length + j → goodCall oracle (k + m) = true) →
    oracle (k + (i * fps.length + j)) = .timeout →
    debateLoop oracle fps mt steps roundNum k acc =
      .ok (if (acc ++ oracleRounds oracle fps.length k i).isEmpty
           then acc ++ oracleRounds oracle fps.length k i
           else (acc ++ oracleRounds oracle fps.length k i) ++
             [sysEntry (roundNum + i + 1) (steps.getD i "") mt])
  | 0, steps, roundNum, k, acc, hi, hgood, ht => by
    match steps, hi with
    | step :: rest, _ =>
      have hr := roundLoop_stop oracle fps k j hj
        (fun m hm => hgood m (by simpa using hm)) (by simpa using ht)
      simp [debateLoop, hr, oracleRounds]
      rw [List.append_nil]
  | i + 1, steps, roundNum, k, acc, hi, hgood, ht => by
    match steps, hi with
    | step :: rest, hi =>
      have hmul : (i + 1) * fps.length = i * fps.length + fps.length :=
        Nat.succ_mul _ _
      have hr := roundLoop_ok oracle fps k (fun m hm =>
        hgood m (by omega))
      have ih := debateLoop_stop oracle fps mt j hj i rest (roundNum + 1)
        (k + fps.length) (acc ++ oracleBlock oracle k fps.length)
        (by simpa using hi)
        (fun m hm => by
          have hh := hgood (fps.length + m) (by omega)
          rwa [show k + (fps.length + m) = k + fps.length + m by omega] at hh)
        (by rwa [show k + fps.length + (i * fps.length + j) =
              k + ((i + 1) * fps.length + j) by omega])
      simp only [debateLoop, hr]
      rw [ih]
      simp only [oracleRounds, List.getD_cons_succ, ← List.append_assoc]
      rw [show roundNum + 1 + i + 1 = roundNum + (i + 1) + 1 by omega]

theorem padSteps_ne_nil (ps : List String) (rounds : Nat) (h : ps ≠ []) :
    padSteps ps rounds = some (paddedSteps ps rounds) ∧
    (paddedSteps ps rounds).length = rounds := by
  unfold paddedSteps padSteps
  by_cases hlt : ps.length < rounds
  · cases hps : ps.getLast? with
    | none => exact absurd (List.getLast?_eq_none_iff.mp hps) h
    | some l =>
      simp only [hlt, if_true, hps, Option.getD_some]
      refine ⟨by trivial, ?_⟩
      simp [List.length_take, List.length_append, List.length_replicate]
      omega
  · simp only [hlt, if_false, Option.getD_some]
    refine ⟨by trivial, ?_⟩
    simp [List.length_take]
    omega

/-! Helper lemmas about the extractor and the persona builder. -/

theorem mapM_length {a b : Type} (f : a → Option b) :
    ∀ (l : List a) (l2 : List b), l.mapM f = some l2 → l2.length = l.length
  | [], l2, h => by
    simp only [List.mapM_nil, Option.pure_def, Option.some.injEq] at h
    simp [← h]
  | x :: l, l2, h => by
    simp only [List.mapM_cons, Option.pure_def, Option.bind_eq_bind,
      Option.bind_eq_some, Option.some.injEq] at h
    obtain ⟨y, _, l3, hl3, rfl⟩ := h
    simp [mapM_length f l l3 hl3]

theorem stakeholdersOfMatches_length :
    ∀ (i : Nat) (ms : List String),
    (stakeholdersOfMatches i ms).length = ms.length
  | _, [] => rfl
  | i, m :: ms => by
    simp [stakeholdersOfMatches, stakeholdersOfMatches_length (i + 1) ms]

theorem mock_stakeholders_le (d ph : String) :
    (mock_extraction d ph).stakeholders.length ≤ MAX_STAKEHOLDERS := by
  unfold mock_extraction
  by_cases hsp : (strHasSub d "State Department" ||
      strHasSub d "Indo-Pacific") = true
  · simp only [hsp, if_true]
    decide
  · simp only [Bool.not_eq_true] at hsp
    simp only [hsp, Bool.false_eq_true, if_false]
    rw [stakeholdersOfMatches_length]
    exact List.length_take_le _ _

theorem mock_process_ne_nil (d ph : String) :
    (mock_extraction d ph).process ≠ [] := by
  unfold mock_extraction
  by_cases hsp : (strHasSub d "State Department" ||
      strHasSub d "Indo-Pacific") = true
  · simp only [hsp, if_true]
    decide
  · simp only [Bool.not_eq_true] at hsp
    simp only [hsp, Bool.false_eq_true, if_false]
    cases hp : cleanedItems 1 (findallNum ph) with
    | nil => simp
    | cons x l => simp

theorem validateSuccess_bounds (ph : String) (fields : List (String × JVal))
    (ex : Extracted) (h : validateSuccess ph fields = some ex) :
    MIN_STAKEHOLDERS ≤ ex.stakeholders.length ∧
    ex.stakeholders.length ≤ MAX_STAKEHOLDERS := by
  unfold validateSuccess at h
  cases hj : (lookupField fields "stakeholders").getD (.arr []) with
  | arr stks =>
    rw [hj] at h
    simp only at h
    by_cases hc : MIN_STAKEHOLDERS ≤ stks.length ∧
        stks.length ≤ MAX_STAKEHOLDERS
    · rw [if_pos hc] at h
      cases hm : stks.mapM (validateStakeholder ph) with
      | none => rw [hm] at h; simp at h
      | some stakeholders =>
        rw [hm] at h
        cases hi : strListOf ((lookupField fields "issues").getD
            (.arr [.str "Unknown issue"])) with
        | none => rw [hi] at h; simp at h
        | some issues =>
          rw [hi] at h
          cases hp : strListOf ((lookupField fields "process").getD
              (.arr [.str "Unknown step"])) with
          | none => rw [hp] at h; simp at h
          | some process =>
            rw [hp] at h
            simp only [Option.some.injEq] at h
            have hlen := mapM_length (validateStakeholder ph) stks
              stakeholders hm
            rw [← h]
            simp only
            omega
    · rw [if_neg hc] at h
      simp at h
  | null => rw [hj] at h; simp at h
  | bool b => rw [hj] at h; simp at h
  | num n => rw [hj] at h; simp at h
  | str s => rw [hj] at h; simp at h
  | obj fs => rw [hj] at h; simp at h

theorem buildPersonas_names (ex : Extracted) (env : Nat → PersonaEnv) :
    ∀ (ns : List String) (i : Nat),
    (buildPersonas ex env i ns).map Persona.name = ns
  | [], _ => rfl
  | n :: ns, i => by
    simp [buildPersonas, buildPersona, buildPersonas_names ex env ns (i + 1)]

theorem mem_buildPersonas (ex : Extracted) (env : Nat → PersonaEnv) :
    ∀ (ns : List String) (i : Nat) (p : Persona),
    p ∈ buildPersonas ex env i ns →
    ∃ k n, p = buildPersona ex (env k) n
  | [], _, p, h => absurd h (by simp [buildPersonas])
  | n :: ns, i, p, h => by
    simp only [buildPersonas, List.mem_cons] at h
    cases h with
    | inl h => exact ⟨i, n, h⟩
    | inr h => exact mem_buildPersonas ex env ns (i + 1) p h

theorem sample2_goals_ok :
    ∀ (i : Fin 7) (j : Fin 6),
    (sample2 goals_options i.val j.val).length = 2 ∧
    (sample2 goals_options i.val j.val).Nodup ∧
    ∀ g ∈ sample2 goals_options i.val j.val, g ∈ goals_options := by
  decide

theorem sample2_biases_ok :
    ∀ (i : Fin 5) (j : Fin 4),
    (sample2 biases_options i.val j.val).length = 2 ∧
    (sample2 biases_options i.val j.val).Nodup ∧
    ∀ b ∈ sample2 biases_options i.val j.val, b ∈ biases_options := by
  decide

/-! Claim theorems. -/

/-- Claim C1 (counterexample): with a single persona and a Gateway that
raises on every call, `simulate_debate` does not absorb the failure into a
templated fallback transcript entry; it propagates the exception to the
caller, returning an error instead of a transcript. -/
theorem c1_counterexample :
    simulate_debate (fun _ => CallResult.gwError) [onePersona] "d" ""
      oneStepExtracted "" 1 120 = .error .callError := rfl

/-- Claim C1 (amended): each per-persona Gateway call is attempted exactly
once (no retry); when the call in round `i` for persona position `j`
raises or returns an out-of-shape payload — all earlier calls having
succeeded — the exception propagates to the caller as an error and no
fallback message is appended to the transcript. -/
theorem c1_fail_fast (oracle : Nat → CallResult) (personas : List Persona)
    (dilemma process_hint : String) (ex : Extracted) (scenarios : String)
    (rounds mt i j : Nat)
    (hp : ex.process ≠ []) (hi : i < rounds)
    (hj : j < debateWidth process_hint ex.stakeholders personas)
    (hgood : ∀ m,
      m < i * debateWidth process_hint ex.stakeholders personas + j →
      goodCall oracle m = true)
    (hbad : badCall oracle
      (i * debateWidth process_hint ex.stakeholders personas + j) = true) :
    simulate_debate oracle personas dilemma process_hint ex scenarios rounds
      mt = .error .callError := by
  obtain ⟨hps, hlen⟩ := padSteps_ne_nil ex.process rounds hp
  unfold simulate_debate
  rw [hps]
  exact debateLoop_err oracle _ mt j hj i _ 0 0 []
    (by rw [hlen]; exact hi)
    (fun m hm => by simpa using hgood m hm)
    (by simpa using hbad)

/-- Claim C1 (witness for the amended theorem). -/
theorem c1_fail_fast_witness :
    oneStepExtracted.process ≠ [] ∧ 0 < 1 ∧
    0 < debateWidth "" oneStepExtracted.stakeholders [onePersona] ∧
    (∀ m, m < 0 * debateWidth "" oneStepExtracted.stakeholders [onePersona]
      + 0 → goodCall (fun _ => CallResult.gwError) m = true) ∧
    badCall (fun _ => CallResult.gwError)
      (0 * debateWidth "" oneStepExtracted.stakeholders [onePersona] + 0) =
      true ∧
    simulate_debate (fun _ => CallResult.gwError) [onePersona] "d" ""
      oneStepExtracted "" 1 120 = .error .callError :=
  ⟨by decide, by decide, by decide, by decide, by decide,
   c1_fail_fast (fun _ => CallResult.gwError) [onePersona] "d" ""
     oneStepExtracted "" 1 120 0 0 (by decide) (by decide) (by decide)
     (by decide) (by decide)⟩

/-- Claim C2 (counterexample): the first persona's call completes
successfully, the timeout strikes at the second persona's call of the same
(first) round; the orchestrator then discards the completed in-flight
round and returns an empty transcript with no synthetic "System" entry —
against the claim that the partial transcript is returned with a "System"
interruption entry appended. -/
theorem c2_counterexample :
    simulate_debate cutOffOracle [onePersona, twoPersona] "d" ""
      oneStepExtracted "" 1 120 = .ok ([] : List JVal) ∧
    goodCall cutOffOracle 0 = true := ⟨rfl, rfl⟩

/-- Claim C2 (amended): the timeout exception (modelled at Gateway-call
granularity; the `SIGALRM` of the source can strike anywhere) is observed
inside the round loop, not at round boundaries: when it strikes at call
`j` of round `i`, the current round's already-completed entries are
discarded, and the run returns — as a normal result — the transcript of
the `i` fully completed rounds, with the "System" interruption entry
appended only when that transcript is non-empty (in particular, no
"System" entry at all when the first round is interrupted). -/
theorem c2_timeout_return (oracle : Nat → CallResult)
    (personas : List Persona) (dilemma process_hint : String)
    (ex : Extracted) (scenarios : String) (rounds mt i j : Nat)
    (hp : ex.process ≠ []) (hi : i < rounds)
    (hj : j < debateWidth process_hint ex.stakeholders personas)
    (hgood : ∀ m,
      m < i * debateWidth process_hint ex.stakeholders personas + j →
      goodCall oracle m = true)
    (ht : oracle
      (i * debateWidth process_hint ex.stakeholders personas + j) =
      .timeout) :
    simulate_debate oracle personas dilemma process_hint ex scenarios rounds
      mt = .ok (if i = 0 then []
        else oracleRounds oracle
            (debateWidth process_hint ex.stakeholders personas) 0 i ++
          [sysEntry (i + 1) ((paddedSteps ex.process rounds).getD i "") mt]) := by
  obtain ⟨hps, hlen⟩ := padSteps_ne_nil ex.process rounds hp
  have hmain : simulate_debate oracle personas dilemma process_hint ex
      scenarios rounds mt = debateLoop oracle
      (filteredPersonas process_hint ex.stakeholders personas) mt
      (paddedSteps ex.process rounds) 0 0 [] := by
    unfold simulate_debate
    rw [hps]
  rw [hmain]
  have hd := debateLoop_stop oracle
    (filteredPersonas process_hint ex.stakeholders personas) mt j hj i
    (paddedSteps ex.process rounds) 0 0 []
    (by rw [hlen]; exact hi)
    (fun m hm => by simpa using hgood m hm)
    (by simpa using ht)
  rw [hd]
  simp only [List.nil_append, Nat.zero_add]
  cases i with
  | zero => simp [oracleRounds]
  | succ i2 =>
    have hW : (filteredPersonas process_hint ex.stakeholders
        personas).length =
        debateWidth process_hint ex.stakeholders personas := rfl
    have hpos : 0 < debateWidth process_hint ex.stakeholders personas :=
      lt_of_le_of_lt (Nat.zero_le j) hj
    have hne : oracleRounds oracle
        (debateWidth process_hint ex.stakeholders personas) 0 (i2 + 1) ≠
        [] := by
      apply List.length_pos.mp
      rw [oracleRounds_length]
      exact Nat.mul_pos (Nat.succ_pos i2) hpos
    have hie : (oracleRounds oracle
        (debateWidth process_hint ex.stakeholders personas) 0
        (i2 + 1)).isEmpty = false := List.isEmpty_eq_false.mpr hne
    rw [hW]
    simp [hie]

/-- Claim C2 (witness for the amended theorem): one persona, two rounds;
round 1 completes and the timeout strikes at round 2's only call, so the
run returns round 1's transcript plus the "System" entry for round 2. -/
theorem c2_timeout_return_witness :
    twoStepExtracted.process ≠ [] ∧ 1 < 2 ∧
    0 < debateWidth "" twoStepExtracted.stakeholders [onePersona] ∧
    (∀ m, m < 1 * debateWidth "" twoStepExtracted.stakeholders [onePersona]
      + 0 → goodCall cutOffOracle m = true) ∧
    cutOffOracle
      (1 * debateWidth "" twoStepExtracted.stakeholders [onePersona] + 0) =
      .timeout ∧
    simulate_debate cutOffOracle [onePersona] "d" "" twoStepExtracted "" 2
      120 = .ok (if 1 = 0 then []
        else oracleRounds cutOffOracle
            (debateWidth "" twoStepExtracted.stakeholders [onePersona]) 0 1
          ++ [sysEntry (1 + 1) ((paddedSteps twoStepExtracted.process 2).getD
               1 "") 120]) :=
  ⟨by decide, by decide, by decide, by decide, rfl,
   c2_timeout_return cutOffOracle [onePersona] "d" "" twoStepExtracted "" 2
     120 1 0 (by decide) (by decide) (by decide) (by decide) rfl⟩

/-- Claim C3 (counterexample): with the Gateway failing and inputs whose
process hint contains no numbered stakeholder lines, `extract_info`
returns the parsed-fallback structure with zero stakeholders — below
`MIN_STAKEHOLDERS = 3`. -/
theorem c3_counterexample :
    (extract_info GwResult.failure "x" "y").stakeholders.length = 0 ∧
    0 < MIN_STAKEHOLDERS := ⟨rfl, by decide⟩

/-- Claim C3 (amended): every structure returned by `extract_info` has at
most `MAX_STAKEHOLDERS` stakeholders, and any return with fewer than
`MIN_STAKEHOLDERS` stakeholders is the `mock_extraction` fallback (the
validated success path always lands within the bounds); the fallback's
`process` list is always non-empty — but the fallback's stakeholder list
may be shorter than `MIN_STAKEHOLDERS` (even empty), and the success path
may carry an empty `process` when the Gateway explicitly returns one. -/
theorem c3_extract_bounds (gw : GwResult) (d ph : String) :
    (extract_info gw d ph).stakeholders.length ≤ MAX_STAKEHOLDERS ∧
    (MIN_STAKEHOLDERS ≤ (extract_info gw d ph).stakeholders.length ∨
      extract_info gw d ph = mock_extraction d ph) ∧
    (mock_extraction d ph).process ≠ [] := by
  refine ⟨?_, ?_, mock_process_ne_nil d ph⟩
  · cases gw with
    | failure => exact mock_stakeholders_le d ph
    | malformed => exact mock_stakeholders_le d ph
    | json j =>
      cases j with
      | obj fields =>
        show ((validateSuccess ph fields).getD
          (mock_extraction d ph)).stakeholders.length ≤ MAX_STAKEHOLDERS
        cases hv : validateSuccess ph fields with
        | none => simpa using mock_stakeholders_le d ph
        | some ex2 =>
          simp only [Option.getD_some]
          exact (validateSuccess_bounds ph fields ex2 hv).2
      | null => exact mock_stakeholders_le d ph
      | bool b => exact mock_stakeholders_le d ph
      | num n => exact mock_stakeholders_le d ph
      | str s => exact mock_stakeholders_le d ph
      | arr xs => exact mock_stakeholders_le d ph
  · cases gw with
    | failure => exact Or.inr rfl
    | malformed => exact Or.inr rfl
    | json j =>
      cases j with
      | obj fields =>
        show MIN_STAKEHOLDERS ≤ ((validateSuccess ph fields).getD
            (mock_extraction d ph)).stakeholders.length ∨
          (validateSuccess ph fields).getD (mock_extraction d ph) =
            mock_extraction d ph
        cases hv : validateSuccess ph fields with
        | none => exact Or.inr (by simp)
        | some ex2 =>
          simp only [Option.getD_some]
          exact Or.inl (validateSuccess_bounds ph fields ex2 hv).1
      | null => exact Or.inr rfl
      | bool b => exact Or.inr rfl
      | num n => exact Or.inr rfl
      | str s => exact Or.inr rfl
      | arr xs => exact Or.inr rfl

/-- Claim C4 (counterexample): the transcript entry appended for the one
persona (named "A") of the one round is the Gateway's parsed response
object verbatim: its `round` field is 99 (not 1) and its `agent` field is
"X" (not the persona's name), because the orchestrator never overwrites
or checks the field values beyond key presence. -/
theorem c4_counterexample :
    simulate_debate (fun _ => CallResult.success strayEntry) [onePersona]
      "d" "" oneStepExtracted "" 1 120 = .ok [strayEntry] ∧
    strayEntry = JVal.obj [("agent", JVal.str "X"), ("round", JVal.num 99),
      ("step", JVal.str "w"), ("message", JVal.str "m")] ∧
    onePersona.name = "A" := ⟨rfl, rfl, rfl⟩

/-- Claim C4 (amended): when every Gateway call succeeds with a
JSON object carrying the four required keys and no timeout fires, the
transcript is exactly the round-major concatenation: for each of the
`rounds` rounds, one entry per filtered persona in declaration order,
entry `j` of round `i` being the response of call `i*width + j` —
appended verbatim, with no guarantee that its `agent`, `round` or `step`
fields echo the prompting persona, round number or step. -/
theorem c4_transcript_order (oracle : Nat → CallResult)
    (personas : List Persona) (dilemma process_hint : String)
    (ex : Extracted) (scenarios : String) (rounds mt : Nat)
    (hp : ex.process ≠ [])
    (hgood : ∀ m,
      m < rounds * debateWidth process_hint ex.stakeholders personas →
      goodCall oracle m = true) :
    simulate_debate oracle personas dilemma process_hint ex scenarios rounds
      mt = .ok (oracleRounds oracle
        (debateWidth process_hint ex.stakeholders personas) 0 rounds) := by
  obtain ⟨hps, hlen⟩ := padSteps_ne_nil ex.process rounds hp
  have hmain : simulate_debate oracle personas dilemma process_hint ex
      scenarios rounds mt = debateLoop oracle
      (filteredPersonas process_hint ex.stakeholders personas) mt
      (paddedSteps ex.process rounds) 0 0 [] := by
    unfold simulate_debate
    rw [hps]
  rw [hmain]
  have hd := debateLoop_ok oracle
    (filteredPersonas process_hint ex.stakeholders personas) mt
    (paddedSteps ex.process rounds) 0 0 []
    (fun m hm => by
      rw [hlen] at hm
      simpa using hgood m hm)
  rw [hd, hlen]
  simp only [List.nil_append]
  rfl

/-- Claim C4 (witness for the amended theorem). -/
theorem c4_transcript_order_witness :
    oneStepExtracted.process ≠ [] ∧
    (∀ m, m < 1 * debateWidth "" oneStepExtracted.stakeholders [onePersona]
      → goodCall (fun _ => CallResult.success strayEntry) m = true) ∧
    simulate_debate (fun _ => CallResult.success strayEntry) [onePersona]
      "d" "" oneStepExtracted "" 1 120 =
      .ok (oracleRounds (fun _ => CallResult.success strayEntry)
        (debateWidth "" oneStepExtracted.stakeholders [onePersona]) 0 1) :=
  ⟨by decide, by decide,
   c4_transcript_order (fun _ => CallResult.success strayEntry) [onePersona]
     "d" "" oneStepExtracted "" 1 120 (by decide) (by decide)⟩

/-- Claim C5: for every non-empty stakeholder list in the extracted
structure, `generate_personas` returns exactly one persona per
stakeholder, the persona names coinciding position by position (hence
one-to-one) with the stakeholder names by exact string match, whatever
the sampling choices and Gateway outcomes. -/
theorem c5_persona_names (env : Nat → PersonaEnv) (ex : Extracted)
    (h : ex.stakeholders ≠ []) :
    (generate_personas env ex).length = ex.stakeholders.length ∧
    (generate_personas env ex).map Persona.name =
      ex.stakeholders.map Stakeholder.name := by
  cases hs : ex.stakeholders with
  | nil => exact absurd hs h
  | cons s ss =>
    unfold generate_personas
    rw [hs]
    simp only [List.isEmpty_cons, Bool.false_eq_true, if_false]
    have hnames := buildPersonas_names ex env ((s :: ss).map Stakeholder.name) 0
    constructor
    · have hlen := congrArg List.length hnames
      simpa using hlen
    · exact hnames

/-- Claim C5 (witness). -/
theorem c5_persona_names_witness :
    oneStakeholderExtracted.stakeholders ≠ [] ∧
    ((generate_personas zeroEnv oneStakeholderExtracted).length =
      oneStakeholderExtracted.stakeholders.length ∧
    (generate_personas zeroEnv oneStakeholderExtracted).map Persona.name =
      oneStakeholderExtracted.stakeholders.map Stakeholder.name) :=
  ⟨by decide, c5_persona_names zeroEnv oneStakeholderExtracted (by decide)⟩

/-- Claim C6 (counterexample): with the Gateway failing and a process hint
whose numbered lines name "Bob" twice, the structure returned by
`extract_info` carries two stakeholders both named "Bob" — names are not
pairwise unique and no numeric disambiguator is appended. -/
theorem c6_counterexample :
    ¬ ((extract_info GwResult.failure "x"
        "1. Bob: a\n2. Bob: b").stakeholders.map Stakeholder.name).Nodup := by
  have h : (extract_info GwResult.failure "x"
      "1. Bob: a\n2. Bob: b").stakeholders.map Stakeholder.name =
      ["Bob", "Bob"] := rfl
  rw [h]
  decide

/-- Claim C6 (amended): `extract_info` contains no disambiguation pass:
colliding stakeholder names are returned verbatim on the success path as
well — a validly-shaped Gateway response naming "Bob" twice (all names
present in the process hint) passes validation and is returned with the
duplicate intact. -/
theorem c6_names_verbatim :
    (extract_info (GwResult.json (JVal.obj dupFields)) "d"
      "Bob Carl").stakeholders.map Stakeholder.name =
      ["Bob", "Bob", "Carl"] ∧
    ¬ (["Bob", "Bob", "Carl"] : List String).Nodup := ⟨rfl, by decide⟩

/-- Claim C7 (counterexample): called with an empty persona list,
`simulate_debate` does not raise any configuration error (the code defines
none and performs no argument validation); it runs its rounds with no
Gateway calls and returns the empty transcript as a normal result. -/
theorem c7_counterexample :
    simulate_debate (fun _ => CallResult.gwError) [] "d" "ph"
      oneStepExtracted "" 3 120 = .ok ([] : List JVal) := rfl

/-- Claim C7 (amended): `simulate_debate` performs no validation of the
persona list: with an empty persona list (and a non-empty process list,
which averts the unrelated `IndexError`) it returns an empty transcript
normally, independently of the Gateway oracle — no call is ever made. -/
theorem c7_empty_personas (oracle : Nat → CallResult)
    (dilemma process_hint : String) (ex : Extracted) (scenarios : String)
    (rounds mt : Nat) (hp : ex.process ≠ []) :
    simulate_debate oracle [] dilemma process_hint ex scenarios rounds mt =
      .ok [] := by
  obtain ⟨hps, hlen⟩ := padSteps_ne_nil ex.process rounds hp
  unfold simulate_debate
  rw [hps]
  exact debateLoop_nilPersonas oracle mt (paddedSteps ex.process rounds) 0 0 []

/-- Claim C7 (witness for the amended theorem). -/
theorem c7_empty_personas_witness :
    oneStepExtracted.process ≠ [] ∧
    simulate_debate (fun _ => CallResult.gwError) [] "d" "ph"
      oneStepExtracted "" 3 120 = .ok [] :=
  ⟨by decide, c7_empty_personas (fun _ => CallResult.gwError) "d" "ph"
    oneStepExtracted "" 3 120 (by decide)⟩

/-- Claim C8: for every transcript, when the summarizer's single Gateway
call raises or returns content that does not parse as JSON, the function
returns — without any exception escaping — exactly its fixed generic
triple: the fixed fallback summary string, the keyword list
["decision", "stakeholders", "process", "debate"], and the fixed fallback
suggestion string. -/
theorem c8_summarizer_fallback (t : List JVal) :
    summarize_and_analyze GwResult.failure t =
      (JVal.str "The debate focused on key decision points, but a detailed summary could not be generated due to an error.",
       JVal.arr [JVal.str "decision", JVal.str "stakeholders",
         JVal.str "process", JVal.str "debate"],
       "Consider reviewing the process steps and stakeholder roles to ensure alignment and clarity.") ∧
    summarize_and_analyze GwResult.malformed t =
      (JVal.str "The debate focused on key decision points, but a detailed summary could not be generated due to an error.",
       JVal.arr [JVal.str "decision", JVal.str "stakeholders",
         JVal.str "process", JVal.str "debate"],
       "Consider reviewing the process steps and stakeholder roles to ensure alignment and clarity.") :=
  ⟨rfl, rfl⟩

/-- Claim C9 (code bug, evaluated at the failing input): Alice's role line
"Alice: USAID Director" matches an extracted stakeholder and contains
"USAID", so the claim (and the code's own comments) say she is removed
before round one with no transcript entry; but because USAID roles are
dropped from the role dict, the filter looks her up to the default empty
role and keeps her: the filtered persona list still contains Alice and the
debate produces a transcript entry from her Gateway call. -/
theorem c9_usaid_not_removed :
    filteredPersonas "Alice: USAID Director" [aliceStakeholder]
      [alicePersona] = [alicePersona] ∧
    simulate_debate (fun _ => CallResult.success strayEntry) [alicePersona]
      "d" "Alice: USAID Director" aliceExtracted "" 1 120 =
      .ok [strayEntry] := ⟨rfl, rfl⟩

/-- Claim C10: every persona returned by `generate_personas` has exactly 2
distinct goals drawn from the fixed 7-entry goal vocabulary and exactly 2
distinct biases drawn from the fixed 5-entry bias vocabulary (sampling
without replacement), whatever the Gateway outcome for its bio call. -/
theorem c10_persona_attributes (env : Nat → PersonaEnv) (ex : Extracted)
    (p : Persona) (h : p ∈ generate_personas env ex) :
    (p.goals.length = 2 ∧ p.goals.Nodup ∧
      ∀ g ∈ p.goals, g ∈ goals_options) ∧
    (p.biases.length = 2 ∧ p.biases.Nodup ∧
      ∀ b ∈ p.biases, b ∈ biases_options) := by
  unfold generate_personas at h
  by_cases he : ex.stakeholders.isEmpty = true
  · rw [if_pos he] at h
    cases h
  · rw [if_neg he] at h
    obtain ⟨k, n, rfl⟩ := mem_buildPersonas ex env _ 0 p h
    exact ⟨sample2_goals_ok (env k).g1 (env k).g2,
           sample2_biases_ok (env k).b1 (env k).b2⟩

/-- Claim C10 (witness). -/
theorem c10_persona_attributes_witness :
    ({ name := "S1", goals := ["maximize impact", "ensure stability"],
       biases := ["confirmation bias", "optimism bias"],
       tone := "diplomatic",
       bio := "S1 has a long career in their field, with extensive experience relevant to the decision at hand.",
       expected_behavior := "During negotiations, S1 will focus on their primary goals, advocating with a diplomatic tone, while being mindful of their biases." } :
      Persona) ∈ generate_personas zeroEnv oneStakeholderExtracted ∧
    ((["maximize impact", "ensure stability"] : List String).length = 2 ∧
      (["maximize impact", "ensure stability"] : List String).Nodup ∧
      ∀ g ∈ (["maximize impact", "ensure stability"] : List String),
        g ∈ goals_options) ∧
    ((["confirmation bias", "optimism bias"] : List String).length = 2 ∧
      (["confirmation bias", "optimism bias"] : List String).Nodup ∧
      ∀ b ∈ (["confirmation bias", "optimism bias"] : List String),
        b ∈ biases_options) :=
  ⟨by decide, c10_persona_attributes zeroEnv oneStakeholderExtracted
    { name := "S1", goals := ["maximize impact", "ensure stability"],
      biases := ["confirmation bias", "optimism bias"],
      tone := "diplomatic",
      bio := "S1 has a long career in their field, with extensive experience relevant to the decision at hand.",
      expected_behavior := "During negotiations, S1 will focus on their primary goals, advocating with a diplomatic tone, while being mindful of their biases." }
    (by decide)⟩

end DecisionTwin
